import Mathlib

/-!
A shallow embedding of `src/src/processor.rs` of the student-intro program.

Rust `String`s are modelled as their UTF-8 byte sequences (`List Nat`), so
`s.len()` is `s.length` and equality is byte equality.  Program-derived
addresses (`Pubkey::find_program_address`) are modelled symbolically: one
constructor of `Pubkey` per seed-tuple shape used by the program, recording
the seeds; this idealises the derivation as an injective pure function of
the seed tuple and the program id, which is exactly the property the
program relies on.  Cross-program invocations (`create_account` of the
system program, `mint_to` of the token program) are modelled as events in a
trace, with a boolean environment flag for whether the external call
succeeds; a freshly created account is zero-filled, so decoding it yields
the all-default record.  The record structs (`state.rs`) are not part of
the given sources; their fields and byte layout are modelled from the spec
(length-prefixed strings, one-byte flag) and from the byte budgets the
processor computes.
-/

namespace StudentIntro

/-- Account addresses.  `key n` is an ordinary (keypair) address; the other
constructors are the program-derived addresses, one per seed tuple used in
`processor.rs`, each carrying the deriving program id:
`introPda pid author` ~ `find_program_address([author.as_ref()], pid)`,
`counterPda pid intro` ~ `find_program_address([intro.as_ref(), b"reply"], pid)`,
`replyPda pid intro bs` ~ `find_program_address([intro.as_ref(), bs], pid)`
(with `bs` the big-endian counter bytes),
`mintPda pid` ~ `find_program_address([b"token_mint"], pid)`,
`authPda pid` ~ `find_program_address([b"token_auth"], pid)`,
`ata owner mint` ~ `get_associated_token_address(owner, mint)`,
`tokenProgId` ~ `spl_token::ID`, `sysProgId` ~ `system_program::ID`. -/
inductive Pubkey where
  | key : Nat → Pubkey
  | introPda : Pubkey → Pubkey → Pubkey
  | counterPda : Pubkey → Pubkey → Pubkey
  | replyPda : Pubkey → Pubkey → List Nat → Pubkey
  | mintPda : Pubkey → Pubkey
  | authPda : Pubkey → Pubkey
  | ata : Pubkey → Pubkey → Pubkey
  | tokenProgId : Pubkey
  | sysProgId : Pubkey
deriving DecidableEq, Repr

/-- Big-endian fixed-width bytes of the reply counter, modelling
`counter.to_be_bytes()` (the counter is an unsigned integer; the spec fixes
the seed component as its fixed-width big-endian encoding). -/
def toBeBytes (n : Nat) : List Nat :=
  [n / 256 ^ 7 % 256, n / 256 ^ 6 % 256, n / 256 ^ 5 % 256, n / 256 ^ 4 % 256,
   n / 256 ^ 3 % 256, n / 256 ^ 2 % 256, n / 256 % 256, n % 256]

/-- Modelled from the spec: the `StudentInfo` record of `state.rs` (not among
the given sources): discriminator tag, initialized flag, name, message. -/
structure StudentInfo where
  discriminator : List Nat
  is_initialized : Bool
  name : List Nat
  msg : List Nat
deriving DecidableEq, Repr

/-- Modelled from the spec: the `ReplyCounter` record of `state.rs`:
discriminator tag, initialized flag, reply count (unsigned integer). -/
structure ReplyCounter where
  discriminator : List Nat
  is_initialized : Bool
  counter : Nat
deriving DecidableEq, Repr

/-- Modelled from the spec: the `Reply` record of `state.rs`: discriminator
tag, back-reference to the owning introduction, reply text, flag. -/
structure Reply where
  discriminator : List Nat
  studentinfo : Pubkey
  reply : List Nat
  is_initialized : Bool
deriving DecidableEq, Repr

/-- UTF-8 bytes of the string literal `"studentinfo"` (length 11). -/
def studentinfoDiscBytes : List Nat :=
  [115, 116, 117, 100, 101, 110, 116, 105, 110, 102, 111]

/-- UTF-8 bytes of the string literal `"counter"` (length 7). -/
def counterDiscBytes : List Nat := [99, 111, 117, 110, 116, 101, 114]

/-- UTF-8 bytes of the string literal `"reply"` (length 5). -/
def replyDiscBytes : List Nat := [114, 101, 112, 108, 121]

/-- Zero-filled storage decoded as `StudentInfo` via
`try_from_slice_unchecked`: empty strings, flag false. -/
def defaultStudentInfo : StudentInfo :=
  { discriminator := [], is_initialized := false, name := [], msg := [] }

/-- Zero-filled storage decoded as `ReplyCounter`. -/
def defaultReplyCounter : ReplyCounter :=
  { discriminator := [], is_initialized := false, counter := 0 }

/-- Zero-filled storage decoded as `Reply`. -/
def defaultReply : Reply :=
  { discriminator := [], studentinfo := Pubkey.key 0, reply := [],
    is_initialized := false }

/-- Borsh 4-byte little-endian length. -/
def le4 (n : Nat) : List Nat :=
  [n % 256, n / 256 % 256, n / 256 ^ 2 % 256, n / 256 ^ 3 % 256]

/-- Borsh serialization of a string: 4-byte length followed by the bytes. -/
def serializeString (s : List Nat) : List Nat := le4 s.length ++ s

/-- Modelled from the spec: Borsh serialization of a `StudentInfo` record
(length-prefixed strings, one-byte flag). -/
def serializeStudentInfo (r : StudentInfo) : List Nat :=
  serializeString r.discriminator ++ serializeString r.name ++
    serializeString r.msg ++ [if r.is_initialized then 1 else 0]

/-- The error outcomes the processor can produce.  `invalidPDA` is the
spec's `InvalidDerivedAddress`, `invalidDataLength` its `RecordTooLarge`,
`incorrectAccountError` its `IncorrectCollaboratorAccount`,
`missingRequiredSignature` its `MissingAuthorization`.  `externalCallFailed`
stands for an error surfaced by an `invoke_signed` CPI (such as
`AddressAlreadyInUse`), `serializationFailed` for a Borsh write into a
buffer that is too small. -/
inductive ProgErr where
  | missingRequiredSignature
  | invalidPDA
  | incorrectAccountError
  | invalidDataLength
  | uninitializedAccount
  | illegalOwner
  | accountAlreadyInitialized
  | invalidArgument
  | externalCallFailed
  | serializationFailed
deriving DecidableEq, Repr

/-- The parts of a Solana `AccountInfo` the processor reads. -/
structure AccountMeta where
  key : Pubkey
  isSigner : Bool
  owner : Pubkey
deriving DecidableEq, Repr

/-- Observable effects of one instruction, in program order: account
creation CPIs, record writes, token mints. -/
inductive Event where
  | createAccount (funder target : Pubkey) (lamports space : Nat) (owner : Pubkey)
  | writeStudent (target : Pubkey) (rec : StudentInfo)
  | writeCounter (target : Pubkey) (rec : ReplyCounter)
  | writeReply (target : Pubkey) (rec : Reply)
  | mintTo (mint dest authority : Pubkey) (amount : Nat)
deriving DecidableEq, Repr

/-- `solana_program::native_token::LAMPORTS_PER_SOL`. -/
def LAMPORTS_PER_SOL : Nat := 1000000000

/-- Is the event a token mint? -/
def Event.isMint : Event → Bool
  | .mintTo _ _ _ _ => true
  | _ => false

/-- The account list of `update_student_intro`, in instruction order,
together with the record the introduction account's bytes decode to and the
account's allocated byte length. -/
structure UpdateAccounts where
  initializer : AccountMeta
  userAccount : AccountMeta
  userData : StudentInfo
  userSize : Nat
deriving DecidableEq, Repr

/-- `update_student_intro` of `processor.rs` (lines 219-266): decode, check
initialized, check owner, re-derive the introduction PDA from the first
account's key, size-check `1 + (4 + name.len()) + (4 + message.len())`
against 1000, then re-encode with only the message replaced (the `name`
argument is never used: line 259 reassigns the existing name to itself).
Returns the stored record and the write trace. -/
def update_student_intro (program_id : Pubkey) (a : UpdateAccounts)
    (name message : List Nat) : Except ProgErr (StudentInfo × List Event) :=
  let account_data := a.userData
  if !account_data.is_initialized then
    Except.error ProgErr.uninitializedAccount
  else if a.userAccount.owner ≠ program_id then
    Except.error ProgErr.illegalOwner
  else if Pubkey.introPda program_id a.initializer.key ≠ a.userAccount.key then
    Except.error ProgErr.invalidPDA
  else
    let update_len : Nat := 1 + (4 + account_data.name.length) + (4 + message.length)
    if update_len > 1000 then
      Except.error ProgErr.invalidDataLength
    else
      let new_data : StudentInfo := { account_data with msg := message }
      if (serializeStudentInfo new_data).length > a.userSize then
        Except.error ProgErr.serializationFailed
      else
        Except.ok (new_data, [Event.writeStudent a.userAccount.key new_data])

/-- The account list of `add_student_intro`, in instruction order. -/
structure CreateAccounts where
  initializer : AccountMeta
  userAccount : AccountMeta
  replyCounter : AccountMeta
  tokenMintPda : AccountMeta
  mintAuthPda : AccountMeta
  userAta : AccountMeta
  systemProgram : AccountMeta
  tokenProgram : AccountMeta
deriving DecidableEq, Repr

/-- Environment of `add_student_intro`: rent-exempt balances returned by the
rent sysvar, and whether each external CPI succeeds (a `create_account`
fails when the target address is already in use or the funder cannot pay;
`mint_to` can be rejected by the token program). -/
structure CreateEnv where
  rentStudent : Nat
  rentCounter : Nat
  userCreateOk : Bool
  counterCreateOk : Bool
  mintOk : Bool
deriving DecidableEq, Repr

/-- `add_student_intro` of `processor.rs` (lines 44-217): require the
initializer's signature; re-derive the introduction PDA from the
initializer's key; check mint, mint-authority, associated-token-account and
token-program addresses; size-check
`(4 + 11) + 1 + (4 + name.len()) + (4 + message.len())` against the fixed
1000-byte allocation; create and populate the introduction account; then
re-derive and check the counter PDA, create and populate the counter with
count 0; finally mint `10 * LAMPORTS_PER_SOL` tokens to the associated
token account.  Freshly created accounts are zero-filled, so the decoded
records before population are the defaults. -/
def add_student_intro (program_id : Pubkey) (a : CreateAccounts)
    (e : CreateEnv) (name message : List Nat) : Except ProgErr (List Event) :=
  if !a.initializer.isSigner then
    Except.error ProgErr.missingRequiredSignature
  else
    let user_pda := Pubkey.introPda program_id a.initializer.key
    if user_pda ≠ a.userAccount.key then
      Except.error ProgErr.invalidPDA
    else if a.tokenMintPda.key ≠ Pubkey.mintPda program_id then
      Except.error ProgErr.incorrectAccountError
    else if a.mintAuthPda.key ≠ Pubkey.authPda program_id then
      Except.error ProgErr.incorrectAccountError
    else if a.userAta.key ≠ Pubkey.ata a.initializer.key a.tokenMintPda.key then
      Except.error ProgErr.incorrectAccountError
    else if a.tokenProgram.key ≠ Pubkey.tokenProgId then
      Except.error ProgErr.incorrectAccountError
    else
      let account_len : Nat := 1000
      let total_len : Nat :=
        (4 + studentinfoDiscBytes.length) + 1 + (4 + name.length) + (4 + message.length)
      if total_len > account_len then
        Except.error ProgErr.invalidDataLength
      else if !e.userCreateOk then
        Except.error ProgErr.externalCallFailed
      else
        let ev1 := Event.createAccount a.initializer.key a.userAccount.key
          e.rentStudent account_len program_id
        let account_data := defaultStudentInfo
        if account_data.is_initialized then
          Except.error ProgErr.accountAlreadyInitialized
        else
          let account_data : StudentInfo :=
            { account_data with
              discriminator := studentinfoDiscBytes
              name := name
              msg := message
              is_initialized := true }
          if (serializeStudentInfo account_data).length > account_len then
            Except.error ProgErr.serializationFailed
          else
            let ev2 := Event.writeStudent a.userAccount.key account_data
            let counter_len : Nat := (4 + counterDiscBytes.length) + 1 + 1
            let counter := Pubkey.counterPda program_id user_pda
            if counter ≠ a.replyCounter.key then
              Except.error ProgErr.invalidArgument
            else if !e.counterCreateOk then
              Except.error ProgErr.externalCallFailed
            else
              let ev3 := Event.createAccount a.initializer.key a.replyCounter.key
                e.rentCounter counter_len program_id
              let counter_data := defaultReplyCounter
              if counter_data.is_initialized then
                Except.error ProgErr.accountAlreadyInitialized
              else
                let counter_data : ReplyCounter :=
                  { counter_data with
                    discriminator := counterDiscBytes
                    counter := 0
                    is_initialized := true }
                let ev4 := Event.writeCounter a.replyCounter.key counter_data
                if !e.mintOk then
                  Except.error ProgErr.externalCallFailed
                else
                  let ev5 := Event.mintTo a.tokenMintPda.key a.userAta.key
                    a.mintAuthPda.key (10 * LAMPORTS_PER_SOL)
                  Except.ok [ev1, ev2, ev3, ev4, ev5]

/-- The account list of `add_reply`, in instruction order, together with the
record the counter account's bytes decode to.  The introduction account in
position two is carried in full even though `add_reply` reads nothing of it
but its key. -/
structure ReplyAccounts where
  replier : AccountMeta
  userAccount : AccountMeta
  replyCounter : AccountMeta
  replyAccount : AccountMeta
  systemProgram : AccountMeta
  counterData : ReplyCounter
deriving DecidableEq, Repr

/-- Environment of `add_reply`: rent-exempt balance for the reply account
and whether the `create_account` CPI succeeds. -/
structure ReplyEnv where
  rent : Nat
  createOk : Bool
deriving DecidableEq, Repr

/-- Result of a successful `add_reply`: the trace, the stored reply record
and the counter record written back. -/
structure ReplyOutcome where
  events : List Event
  storedReply : Reply
  newCounter : ReplyCounter
deriving DecidableEq, Repr

/-- `add_reply` of `processor.rs` (lines 268-338): decode the counter (no
initialization check); re-derive the reply PDA from the supplied
introduction key and the counter's big-endian bytes and compare against the
supplied reply address; create the reply account funded by the replier;
populate the reply record with the supplied introduction key as
back-reference; only then increment the counter and write it back.  No
signature is required of any account, and neither the introduction account
nor the counter address is validated. -/
def add_reply (program_id : Pubkey) (a : ReplyAccounts) (e : ReplyEnv)
    (reply : List Nat) : Except ProgErr ReplyOutcome :=
  let counter_data := a.counterData
  let account_len : Nat := (4 + replyDiscBytes.length) + 1 + 32 + (4 + reply.length)
  let pda := Pubkey.replyPda program_id a.userAccount.key (toBeBytes counter_data.counter)
  if pda ≠ a.replyAccount.key then
    Except.error ProgErr.invalidPDA
  else if !e.createOk then
    Except.error ProgErr.externalCallFailed
  else
    let ev1 := Event.createAccount a.replier.key a.replyAccount.key
      e.rent account_len program_id
    let reply_data := defaultReply
    if reply_data.is_initialized then
      Except.error ProgErr.accountAlreadyInitialized
    else
      let reply_data : Reply :=
        { reply_data with
          discriminator := replyDiscBytes
          studentinfo := a.userAccount.key
          reply := reply
          is_initialized := true }
      let ev2 := Event.writeReply a.replyAccount.key reply_data
      let counter_data2 : ReplyCounter :=
        { counter_data with counter := counter_data.counter + 1 }
      let ev3 := Event.writeCounter a.replyCounter.key counter_data2
      Except.ok { events := [ev1, ev2, ev3], storedReply := reply_data,
                  newCounter := counter_data2 }

/-- The counter record as written by `add_student_intro`: the start state of
a fresh introduction's reply counter. -/
def freshCounter : ReplyCounter :=
  { discriminator := counterDiscBytes, is_initialized := true, counter := 0 }

/-- The account list an honest caller supplies to `add_reply`: the reply
address is the one derived from the introduction key and the counter's
current value. -/
def honestReplyAccounts (program_id intro : Pubkey) (rep : AccountMeta)
    (counterKey : Pubkey) (c : ReplyCounter) : ReplyAccounts :=
  { replier := rep
    userAccount := { key := intro, isSigner := false, owner := program_id }
    replyCounter := { key := counterKey, isSigner := false, owner := program_id }
    replyAccount := { key := Pubkey.replyPda program_id intro (toBeBytes c.counter)
                      isSigner := false
                      owner := Pubkey.sysProgId }
    systemProgram := { key := Pubkey.sysProgId, isSigner := false, owner := Pubkey.sysProgId }
    counterData := c }

/-- The outcome `add_reply` produces on the honest account list with counter
state `c`: creation of the account derived from `c.counter`, the reply
record written there, and only then the incremented counter written back. -/
def honestOutcome (program_id intro : Pubkey) (rep : AccountMeta)
    (counterKey : Pubkey) (rent : Nat) (c : ReplyCounter) (t : List Nat) : ReplyOutcome :=
  { events :=
      [Event.createAccount rep.key (Pubkey.replyPda program_id intro (toBeBytes c.counter))
         rent ((4 + replyDiscBytes.length) + 1 + 32 + (4 + t.length)) program_id,
       Event.writeReply (Pubkey.replyPda program_id intro (toBeBytes c.counter))
         { discriminator := replyDiscBytes
           studentinfo := intro
           reply := t
           is_initialized := true },
       Event.writeCounter counterKey { c with counter := c.counter + 1 }]
    storedReply := { discriminator := replyDiscBytes
                     studentinfo := intro
                     reply := t
                     is_initialized := true }
    newCounter := { c with counter := c.counter + 1 } }

/-- Sequential `add_reply` calls on one introduction: each call gets the
honest account list for the current counter state, and the counter record
written back by one call is the one the next call decodes. -/
def runReplies (program_id intro : Pubkey) (rep : AccountMeta) (counterKey : Pubkey)
    (e : ReplyEnv) : ReplyCounter → List (List Nat) → Option (ReplyCounter × List ReplyOutcome)
  | c, [] => some (c, [])
  | c, t :: ts =>
    match add_reply program_id (honestReplyAccounts program_id intro rep counterKey c) e t with
    | Except.error _ => none
    | Except.ok o =>
      match runReplies program_id intro rep counterKey e o.newCounter ts with
      | none => none
      | some (cf, os) => some (cf, o :: os)

theorem add_reply_honest_step (program_id intro : Pubkey) (rep : AccountMeta)
    (counterKey : Pubkey) (rent : Nat) (c : ReplyCounter) (t : List Nat) :
    add_reply program_id (honestReplyAccounts program_id intro rep counterKey c)
      { rent := rent, createOk := true } t =
      Except.ok (honestOutcome program_id intro rep counterKey rent c t) := by
  simp [add_reply, honestReplyAccounts, honestOutcome, defaultReply]

theorem runReplies_spec (program_id intro : Pubkey) (rep : AccountMeta)
    (counterKey : Pubkey) (rent : Nat) (ts : List (List Nat)) : ∀ c : ReplyCounter,
    ∃ os : List ReplyOutcome,
      runReplies program_id intro rep counterKey { rent := rent, createOk := true } c ts =
        some ({ c with counter := c.counter + ts.length }, os) ∧
      os.length = ts.length ∧
      ∀ i t, ts[i]? = some t → ∀ h : i < os.length,
        os.get ⟨i, h⟩ =
          honestOutcome program_id intro rep counterKey rent
            { c with counter := c.counter + i } t := by
  induction ts with
  | nil =>
    intro c
    refine ⟨[], ?_, rfl, ?_⟩
    · simp [runReplies]
    · intro i t hit h
      simp at h
  | cons t ts ih =>
    intro c
    obtain ⟨os, hrun, hlen, hidx⟩ := ih { c with counter := c.counter + 1 }
    refine ⟨honestOutcome program_id intro rep counterKey rent c t :: os, ?_, ?_, ?_⟩
    · simp only [runReplies, add_reply_honest_step, honestOutcome, hrun]
      simp [Nat.add_assoc, Nat.add_comm, Nat.add_left_comm]
    · simpa using hlen
    · intro i u hit h
      cases i with
      | zero =>
        simp at hit
        simp [hit]
      | succ j =>
        simp at hit
        have hj : j < os.length := by
          simp at h
          omega
        have := hidx j u (by simpa using hit) hj
        simpa [Nat.add_assoc, Nat.add_comm, Nat.add_left_comm] using this

/-- C1 (counterexample): `add_reply` does not re-derive the ReplyCounter
address.  On an account list whose counter account sits at `key 99`, which
differs from the counter address derived from the supplied introduction
`key 77` and the tag "reply", the call nevertheless succeeds instead of
failing with `InvalidDerivedAddress`. -/
theorem add_reply_ignores_counter_address :
    Pubkey.counterPda (Pubkey.key 1) (Pubkey.key 77) ≠ Pubkey.key 99 ∧
    (add_reply (Pubkey.key 1)
      { replier := ⟨Pubkey.key 2, false, Pubkey.sysProgId⟩
        userAccount := ⟨Pubkey.key 77, false, Pubkey.sysProgId⟩
        replyCounter := ⟨Pubkey.key 99, false, Pubkey.key 1⟩
        replyAccount := ⟨Pubkey.replyPda (Pubkey.key 1) (Pubkey.key 77) (toBeBytes 0), false,
                         Pubkey.sysProgId⟩
        systemProgram := ⟨Pubkey.sysProgId, false, Pubkey.sysProgId⟩
        counterData := ⟨counterDiscBytes, true, 0⟩ }
      { rent := 5, createOk := true } [97]).isOk = true := by
  exact ⟨by decide, rfl⟩

/-- C1 (amended): the address `add_reply` re-derives and checks before any
account is created is the Reply address, from the seed tuple (supplied
introduction address, big-endian counter value); mismatch against the
supplied reply address fails with `InvalidDerivedAddress` (`InvalidPDA`)
and nothing is created or written.  The supplied counter address itself is
never re-derived or validated. -/
theorem add_reply_checks_reply_address (program_id : Pubkey) (a : ReplyAccounts)
    (e : ReplyEnv) (t : List Nat)
    (h : Pubkey.replyPda program_id a.userAccount.key (toBeBytes a.counterData.counter) ≠
         a.replyAccount.key) :
    add_reply program_id a e t = Except.error ProgErr.invalidPDA := by
  simp [add_reply, h]

/-- C1 (witness): the amended theorem at a concrete mismatching reply
address. -/
theorem add_reply_checks_reply_address_witness :
    add_reply (Pubkey.key 1)
      { replier := ⟨Pubkey.key 2, false, Pubkey.sysProgId⟩
        userAccount := ⟨Pubkey.key 77, false, Pubkey.sysProgId⟩
        replyCounter := ⟨Pubkey.key 99, false, Pubkey.key 1⟩
        replyAccount := ⟨Pubkey.key 5, false, Pubkey.sysProgId⟩
        systemProgram := ⟨Pubkey.sysProgId, false, Pubkey.sysProgId⟩
        counterData := ⟨counterDiscBytes, true, 0⟩ }
      { rent := 5, createOk := true } [97] = Except.error ProgErr.invalidPDA :=
  add_reply_checks_reply_address _ _ _ _ (by decide)

set_option maxRecDepth 20000 in
/-- C2 (code bug): `update_student_intro` computes its size check as
`1 + (4 + name.len()) + (4 + message.len())`, omitting the 15 bytes of the
length-prefixed discriminator that the serialized record contains.  At a
stored record with empty name and message and a new 977-byte message, the
resulting record's serialized size is 1001 bytes — over the 1000-byte
allocation — yet the check passes, and the call fails later while
re-encoding (a serialization error), not with `RecordTooLarge`. -/
theorem update_size_check_misses_discriminator :
    update_student_intro (Pubkey.key 1)
      { initializer := ⟨Pubkey.key 2, true, Pubkey.sysProgId⟩
        userAccount := ⟨Pubkey.introPda (Pubkey.key 1) (Pubkey.key 2), false, Pubkey.key 1⟩
        userData := ⟨studentinfoDiscBytes, true, [], []⟩
        userSize := 1000 }
      [] (List.replicate 977 0) = Except.error ProgErr.serializationFailed ∧
    (serializeStudentInfo ⟨studentinfoDiscBytes, true, [], List.replicate 977 0⟩).length = 1001 := by
  exact ⟨rfl, rfl⟩

/-- C3: `update_student_intro` never reads the author account's signer flag:
flipping `is_signer` of the first account leaves the result (and thus the
stored state) unchanged, and no invocation returns the
missing-authorization error. -/
theorem update_ignores_signer :
    (∀ (program_id : Pubkey) (a : UpdateAccounts) (name message : List Nat) (b : Bool),
      update_student_intro program_id
        { a with initializer := { a.initializer with isSigner := b } } name message =
      update_student_intro program_id a name message) ∧
    (∀ (program_id : Pubkey) (a : UpdateAccounts) (name message : List Nat),
      update_student_intro program_id a name message ≠
        Except.error ProgErr.missingRequiredSignature) := by
  constructor
  · intro program_id a name message b
    rfl
  · intro program_id a name message h
    simp only [update_student_intro] at h
    split at h
    · simp at h
    · split at h
      · simp at h
      · split at h
        · simp at h
        · split at h
          · simp at h
          · split at h
            · simp at h
            · simp at h

/-- C3 (witness): the theorem at one concrete account list. -/
theorem update_ignores_signer_witness :
    update_student_intro (Pubkey.key 1)
      { initializer := ⟨Pubkey.key 2, false, Pubkey.sysProgId⟩
        userAccount := ⟨Pubkey.introPda (Pubkey.key 1) (Pubkey.key 2), false, Pubkey.key 1⟩
        userData := ⟨studentinfoDiscBytes, true, [], []⟩
        userSize := 1000 }
      [] [104] =
    update_student_intro (Pubkey.key 1)
      { initializer := ⟨Pubkey.key 2, true, Pubkey.sysProgId⟩
        userAccount := ⟨Pubkey.introPda (Pubkey.key 1) (Pubkey.key 2), false, Pubkey.key 1⟩
        userData := ⟨studentinfoDiscBytes, true, [], []⟩
        userSize := 1000 }
      [] [104] ∧
    update_student_intro (Pubkey.key 1)
      { initializer := ⟨Pubkey.key 2, true, Pubkey.sysProgId⟩
        userAccount := ⟨Pubkey.introPda (Pubkey.key 1) (Pubkey.key 2), false, Pubkey.key 1⟩
        userData := ⟨studentinfoDiscBytes, true, [], []⟩
        userSize := 1000 }
      [] [104] ≠ Except.error ProgErr.missingRequiredSignature :=
  ⟨update_ignores_signer.1 (Pubkey.key 1)
      ⟨⟨Pubkey.key 2, true, Pubkey.sysProgId⟩,
       ⟨Pubkey.introPda (Pubkey.key 1) (Pubkey.key 2), false, Pubkey.key 1⟩,
       ⟨studentinfoDiscBytes, true, [], []⟩, 1000⟩ [] [104] false,
   update_ignores_signer.2 (Pubkey.key 1)
      ⟨⟨Pubkey.key 2, true, Pubkey.sysProgId⟩,
       ⟨Pubkey.introPda (Pubkey.key 1) (Pubkey.key 2), false, Pubkey.key 1⟩,
       ⟨studentinfoDiscBytes, true, [], []⟩, 1000⟩ [] [104]⟩

/-- C4: for any number of sequential successful `add_reply` calls on one
introduction starting from the freshly created counter, the counter's value
after the k-th call equals k; the k-th call checks and creates the reply at
the address derived from (introduction address, big-endian bytes of k−1);
and within each call's trace the counter write comes strictly after the
reply record has been populated and written (the trace is
`[createAccount, writeReply, writeCounter]` in program order).  Stated with
zero-based index i = k−1 over the list of reply texts. -/
theorem add_reply_sequential_counter (program_id intro : Pubkey) (rep : AccountMeta)
    (counterKey : Pubkey) (rent : Nat) (ts : List (List Nat)) :
    ∃ os : List ReplyOutcome,
      runReplies program_id intro rep counterKey { rent := rent, createOk := true }
        freshCounter ts =
        some (⟨counterDiscBytes, true, ts.length⟩, os) ∧
      os.length = ts.length ∧
      ∀ i t, ts[i]? = some t → ∀ h : i < os.length,
        (os.get ⟨i, h⟩).newCounter.counter = i + 1 ∧
        (os.get ⟨i, h⟩).events =
          [Event.createAccount rep.key (Pubkey.replyPda program_id intro (toBeBytes i))
             rent ((4 + replyDiscBytes.length) + 1 + 32 + (4 + t.length)) program_id,
           Event.writeReply (Pubkey.replyPda program_id intro (toBeBytes i))
             ⟨replyDiscBytes, intro, t, true⟩,
           Event.writeCounter counterKey ⟨counterDiscBytes, true, i + 1⟩] := by
  obtain ⟨os, hrun, hlen, hidx⟩ :=
    runReplies_spec program_id intro rep counterKey rent ts freshCounter
  refine ⟨os, ?_, hlen, ?_⟩
  · simpa [freshCounter] using hrun
  · intro i t hit h
    have hcur := hidx i t hit h
    rw [hcur]
    constructor
    · simp [honestOutcome, freshCounter]
    · simp [honestOutcome, freshCounter]

/-- C4 (witness): two sequential replies on a concrete introduction; the
counter ends at 2 and the second call's counter value is 2. -/
theorem add_reply_sequential_counter_witness :
    ∃ os : List ReplyOutcome,
      runReplies (Pubkey.key 1) (Pubkey.key 2) ⟨Pubkey.key 3, true, Pubkey.sysProgId⟩
        (Pubkey.key 4) { rent := 0, createOk := true } freshCounter [[97], [98]] =
        some (⟨counterDiscBytes, true, 2⟩, os) ∧
      os.length = 2 ∧
      ∀ h : 1 < os.length, (os.get ⟨1, h⟩).newCounter.counter = 2 := by
  obtain ⟨os, h1, h2, h3⟩ :=
    add_reply_sequential_counter (Pubkey.key 1) (Pubkey.key 2)
      ⟨Pubkey.key 3, true, Pubkey.sysProgId⟩ (Pubkey.key 4) 0 [[97], [98]]
  exact ⟨os, h1, h2, fun h => (h3 1 [98] (by decide) h).1⟩

/-- C5: on every successful `update_student_intro`, the stored record keeps
the pre-update discriminator, name and initialized flag and replaces only
the message; and the `name` argument has no effect at all on the result. -/
theorem update_replaces_only_message :
    (∀ (program_id : Pubkey) (a : UpdateAccounts) (name message : List Nat)
       (r : StudentInfo) (evs : List Event),
      update_student_intro program_id a name message = Except.ok (r, evs) →
      r.discriminator = a.userData.discriminator ∧ r.name = a.userData.name ∧
      r.is_initialized = a.userData.is_initialized ∧ r.msg = message) ∧
    (∀ (program_id : Pubkey) (a : UpdateAccounts) (n1 n2 message : List Nat),
      update_student_intro program_id a n1 message =
        update_student_intro program_id a n2 message) := by
  constructor
  · intro program_id a name message r evs h
    simp only [update_student_intro] at h
    split at h
    · simp at h
    · split at h
      · simp at h
      · split at h
        · simp at h
        · split at h
          · simp at h
          · split at h
            · simp at h
            · simp only [Except.ok.injEq, Prod.mk.injEq] at h
              obtain ⟨hr, _⟩ := h
              subst hr
              exact ⟨rfl, rfl, rfl, rfl⟩
  · intro program_id a n1 n2 message
    rfl

/-- C5 (witness): a concrete successful update with new message `[104]`:
the stored record keeps the discriminator, name and flag and carries the
new message. -/
theorem update_replaces_only_message_witness :
    (⟨studentinfoDiscBytes, true, [65], [104]⟩ : StudentInfo).discriminator =
      (⟨studentinfoDiscBytes, true, [65], [66]⟩ : StudentInfo).discriminator ∧
    (⟨studentinfoDiscBytes, true, [65], [104]⟩ : StudentInfo).name =
      (⟨studentinfoDiscBytes, true, [65], [66]⟩ : StudentInfo).name ∧
    (⟨studentinfoDiscBytes, true, [65], [104]⟩ : StudentInfo).is_initialized =
      (⟨studentinfoDiscBytes, true, [65], [66]⟩ : StudentInfo).is_initialized ∧
    (⟨studentinfoDiscBytes, true, [65], [104]⟩ : StudentInfo).msg = [104] :=
  update_replaces_only_message.1 (Pubkey.key 1)
    ⟨⟨Pubkey.key 2, true, Pubkey.sysProgId⟩,
     ⟨Pubkey.introPda (Pubkey.key 1) (Pubkey.key 2), false, Pubkey.key 1⟩,
     ⟨studentinfoDiscBytes, true, [65], [66]⟩, 1000⟩ [] [104]
    ⟨studentinfoDiscBytes, true, [65], [104]⟩
    [Event.writeStudent (Pubkey.introPda (Pubkey.key 1) (Pubkey.key 2))
      ⟨studentinfoDiscBytes, true, [65], [104]⟩]
    rfl

/-- C7: when the supplied introduction account holds an initialized record,
is owned by the program, but its address differs from the one re-derived
from the first supplied account's key, `update_student_intro` fails with
`InvalidDerivedAddress` (`InvalidPDA`); the error result carries no write,
so the stored record is unchanged. -/
theorem update_wrong_author_fails (program_id : Pubkey) (a : UpdateAccounts)
    (name message : List Nat)
    (hinit : a.userData.is_initialized = true)
    (hown : a.userAccount.owner = program_id)
    (hpda : Pubkey.introPda program_id a.initializer.key ≠ a.userAccount.key) :
    update_student_intro program_id a name message = Except.error ProgErr.invalidPDA := by
  simp [update_student_intro, hinit, hown, hpda]

/-- C7 (witness): author `key 3` supplies the introduction address of author
`key 2`, which holds a valid record of that other user; the update fails
with `InvalidPDA`. -/
theorem update_wrong_author_fails_witness :
    update_student_intro (Pubkey.key 1)
      { initializer := ⟨Pubkey.key 3, true, Pubkey.sysProgId⟩
        userAccount := ⟨Pubkey.introPda (Pubkey.key 1) (Pubkey.key 2), false, Pubkey.key 1⟩
        userData := ⟨studentinfoDiscBytes, true, [65], [66]⟩
        userSize := 1000 }
      [] [104] = Except.error ProgErr.invalidPDA :=
  update_wrong_author_fails (Pubkey.key 1)
    ⟨⟨Pubkey.key 3, true, Pubkey.sysProgId⟩,
     ⟨Pubkey.introPda (Pubkey.key 1) (Pubkey.key 2), false, Pubkey.key 1⟩,
     ⟨studentinfoDiscBytes, true, [65], [66]⟩, 1000⟩ [] [104] rfl rfl (by decide)

/-- C6: `add_reply` performs no initialization check on the decoded counter:
when the counter account's bytes decode to the all-default record
(`initialized = false`, count 0), the call never fails with
`UninitializedAccount`; it derives the reply address from count 0 — the
call succeeds when the supplied reply address matches that derivation (and
creation succeeds) and fails with `InvalidPDA` when it does not. -/
theorem add_reply_no_init_check (program_id : Pubkey) (a : ReplyAccounts)
    (e : ReplyEnv) (t : List Nat) (h : a.counterData = defaultReplyCounter) :
    add_reply program_id a e t ≠ Except.error ProgErr.uninitializedAccount ∧
    (a.replyAccount.key = Pubkey.replyPda program_id a.userAccount.key (toBeBytes 0) →
      e.createOk = true →
      ∃ o, add_reply program_id a e t = Except.ok o ∧
        o.storedReply.studentinfo = a.userAccount.key ∧ o.newCounter.counter = 1) ∧
    (a.replyAccount.key ≠ Pubkey.replyPda program_id a.userAccount.key (toBeBytes 0) →
      add_reply program_id a e t = Except.error ProgErr.invalidPDA) := by
  refine ⟨?_, ?_, ?_⟩
  · intro hbad
    simp only [add_reply] at hbad
    split at hbad
    · simp at hbad
    · split at hbad
      · simp at hbad
      · split at hbad
        · simp at hbad
        · simp at hbad
  · intro hk he
    refine ⟨⟨[Event.createAccount a.replier.key a.replyAccount.key e.rent
                ((4 + replyDiscBytes.length) + 1 + 32 + (4 + t.length)) program_id,
              Event.writeReply a.replyAccount.key ⟨replyDiscBytes, a.userAccount.key, t, true⟩,
              Event.writeCounter a.replyCounter.key ⟨[], false, 1⟩],
            ⟨replyDiscBytes, a.userAccount.key, t, true⟩, ⟨[], false, 1⟩⟩, ?_, rfl, rfl⟩
    simp [add_reply, h, defaultReplyCounter, hk, he, defaultReply]
  · intro hk
    have : Pubkey.replyPda program_id a.userAccount.key (toBeBytes a.counterData.counter) ≠
        a.replyAccount.key := by
      rw [h]
      exact fun hc => hk hc.symm
    simp [add_reply, this]

/-- C6 (witness): the theorem at a concrete account list whose counter
account decodes to the default record and whose reply address is the one
derived from count 0. -/
theorem add_reply_no_init_check_witness :
    add_reply (Pubkey.key 1)
      { replier := ⟨Pubkey.key 2, false, Pubkey.sysProgId⟩
        userAccount := ⟨Pubkey.key 77, false, Pubkey.sysProgId⟩
        replyCounter := ⟨Pubkey.counterPda (Pubkey.key 1) (Pubkey.key 77), false, Pubkey.key 1⟩
        replyAccount := ⟨Pubkey.replyPda (Pubkey.key 1) (Pubkey.key 77) (toBeBytes 0), false,
                         Pubkey.sysProgId⟩
        systemProgram := ⟨Pubkey.sysProgId, false, Pubkey.sysProgId⟩
        counterData := ⟨[], false, 0⟩ }
      { rent := 5, createOk := true } [97] ≠
      Except.error ProgErr.uninitializedAccount ∧
    ∃ o, add_reply (Pubkey.key 1)
      { replier := ⟨Pubkey.key 2, false, Pubkey.sysProgId⟩
        userAccount := ⟨Pubkey.key 77, false, Pubkey.sysProgId⟩
        replyCounter := ⟨Pubkey.counterPda (Pubkey.key 1) (Pubkey.key 77), false, Pubkey.key 1⟩
        replyAccount := ⟨Pubkey.replyPda (Pubkey.key 1) (Pubkey.key 77) (toBeBytes 0), false,
                         Pubkey.sysProgId⟩
        systemProgram := ⟨Pubkey.sysProgId, false, Pubkey.sysProgId⟩
        counterData := ⟨[], false, 0⟩ }
      { rent := 5, createOk := true } [97] = Except.ok o ∧
      o.storedReply.studentinfo = Pubkey.key 77 ∧ o.newCounter.counter = 1 := by
  have h := add_reply_no_init_check (Pubkey.key 1)
    ⟨⟨Pubkey.key 2, false, Pubkey.sysProgId⟩,
     ⟨Pubkey.key 77, false, Pubkey.sysProgId⟩,
     ⟨Pubkey.counterPda (Pubkey.key 1) (Pubkey.key 77), false, Pubkey.key 1⟩,
     ⟨Pubkey.replyPda (Pubkey.key 1) (Pubkey.key 77) (toBeBytes 0), false, Pubkey.sysProgId⟩,
     ⟨Pubkey.sysProgId, false, Pubkey.sysProgId⟩,
     ⟨[], false, 0⟩⟩ { rent := 5, createOk := true } [97] rfl
  exact ⟨h.1, h.2.1 rfl rfl⟩

/-- C8: on an honest account list, `add_student_intro` computes the total
serialized size as the length-prefixed 11-byte discriminator, the one-byte
flag, and the length-prefixed name and message; that computed total equals
the serialized length of the record it stores; the check rejects with
`RecordTooLarge` (`InvalidDataLength`) exactly above 1000 bytes — so it
passes at exactly 1000 and fails at 1001 — and below the bound the call
runs to completion. -/
theorem create_size_check (program_id : Pubkey) (a : CreateAccounts) (e : CreateEnv)
    (name message : List Nat)
    (hs : a.initializer.isSigner = true)
    (hu : a.userAccount.key = Pubkey.introPda program_id a.initializer.key)
    (hm : a.tokenMintPda.key = Pubkey.mintPda program_id)
    (ha : a.mintAuthPda.key = Pubkey.authPda program_id)
    (hata : a.userAta.key = Pubkey.ata a.initializer.key a.tokenMintPda.key)
    (htp : a.tokenProgram.key = Pubkey.tokenProgId)
    (hc : a.replyCounter.key =
      Pubkey.counterPda program_id (Pubkey.introPda program_id a.initializer.key))
    (he1 : e.userCreateOk = true) (he2 : e.counterCreateOk = true) (he3 : e.mintOk = true) :
    ((4 + studentinfoDiscBytes.length) + 1 + (4 + name.length) + (4 + message.length) =
      (serializeStudentInfo ⟨studentinfoDiscBytes, true, name, message⟩).length) ∧
    ((4 + studentinfoDiscBytes.length) + 1 + (4 + name.length) + (4 + message.length) > 1000 →
      add_student_intro program_id a e name message =
        Except.error ProgErr.invalidDataLength) ∧
    ((4 + studentinfoDiscBytes.length) + 1 + (4 + name.length) + (4 + message.length) ≤ 1000 →
      add_student_intro program_id a e name message =
        Except.ok
          [Event.createAccount a.initializer.key a.userAccount.key e.rentStudent 1000 program_id,
           Event.writeStudent a.userAccount.key ⟨studentinfoDiscBytes, true, name, message⟩,
           Event.createAccount a.initializer.key a.replyCounter.key e.rentCounter 13 program_id,
           Event.writeCounter a.replyCounter.key ⟨counterDiscBytes, true, 0⟩,
           Event.mintTo a.tokenMintPda.key a.userAta.key a.mintAuthPda.key
             (10 * LAMPORTS_PER_SOL)]) := by
  have h11 : studentinfoDiscBytes.length = 11 := rfl
  have hser : (serializeStudentInfo ⟨studentinfoDiscBytes, true, name, message⟩).length =
      24 + (name.length + message.length) := by
    simp [serializeStudentInfo, serializeString, le4, studentinfoDiscBytes]
    omega
  refine ⟨?_, ?_, ?_⟩
  · rw [hser, h11]
    omega
  · intro hgt
    simp [add_student_intro, hs, hu, hm, ha, hata, htp, hgt]
  · intro hle
    have hnot : ¬ (serializeStudentInfo ⟨studentinfoDiscBytes, true, name, message⟩).length >
        1000 := by
      rw [hser]
      omega
    have hngt : ¬ ((4 + studentinfoDiscBytes.length) + 1 + (4 + name.length) +
        (4 + message.length) > 1000) := by
      omega
    simp [add_student_intro, hs, hu, hm, ha, hata, htp, hc, he1, he2, he3,
      defaultStudentInfo, defaultReplyCounter, hngt, hnot, counterDiscBytes]

/-- C8 (witness): the theorem at an honest concrete account list with an
empty name and a 976-byte message, so the computed total is exactly 1000:
the size equality holds and the call succeeds. -/
theorem create_size_check_witness :
    ((4 + studentinfoDiscBytes.length) + 1 + (4 + ([] : List Nat).length) +
      (4 + (List.replicate 976 0).length) =
      (serializeStudentInfo
        ⟨studentinfoDiscBytes, true, [], List.replicate 976 0⟩).length) ∧
    ((4 + studentinfoDiscBytes.length) + 1 + (4 + ([] : List Nat).length) +
        (4 + (List.replicate 976 0).length) ≤ 1000 →
      add_student_intro (Pubkey.key 1)
        { initializer := ⟨Pubkey.key 2, true, Pubkey.sysProgId⟩
          userAccount := ⟨Pubkey.introPda (Pubkey.key 1) (Pubkey.key 2), false, Pubkey.sysProgId⟩
          replyCounter := ⟨Pubkey.counterPda (Pubkey.key 1)
            (Pubkey.introPda (Pubkey.key 1) (Pubkey.key 2)), false, Pubkey.sysProgId⟩
          tokenMintPda := ⟨Pubkey.mintPda (Pubkey.key 1), false, Pubkey.tokenProgId⟩
          mintAuthPda := ⟨Pubkey.authPda (Pubkey.key 1), false, Pubkey.key 1⟩
          userAta := ⟨Pubkey.ata (Pubkey.key 2) (Pubkey.mintPda (Pubkey.key 1)), false,
                      Pubkey.tokenProgId⟩
          systemProgram := ⟨Pubkey.sysProgId, false, Pubkey.sysProgId⟩
          tokenProgram := ⟨Pubkey.tokenProgId, false, Pubkey.sysProgId⟩ }
        { rentStudent := 7, rentCounter := 3, userCreateOk := true, counterCreateOk := true,
          mintOk := true }
        [] (List.replicate 976 0) =
        Except.ok
          [Event.createAccount (Pubkey.key 2) (Pubkey.introPda (Pubkey.key 1) (Pubkey.key 2))
             7 1000 (Pubkey.key 1),
           Event.writeStudent (Pubkey.introPda (Pubkey.key 1) (Pubkey.key 2))
             ⟨studentinfoDiscBytes, true, [], List.replicate 976 0⟩,
           Event.createAccount (Pubkey.key 2)
             (Pubkey.counterPda (Pubkey.key 1) (Pubkey.introPda (Pubkey.key 1) (Pubkey.key 2)))
             3 13 (Pubkey.key 1),
           Event.writeCounter
             (Pubkey.counterPda (Pubkey.key 1) (Pubkey.introPda (Pubkey.key 1) (Pubkey.key 2)))
             ⟨counterDiscBytes, true, 0⟩,
           Event.mintTo (Pubkey.mintPda (Pubkey.key 1))
             (Pubkey.ata (Pubkey.key 2) (Pubkey.mintPda (Pubkey.key 1)))
             (Pubkey.authPda (Pubkey.key 1)) (10 * LAMPORTS_PER_SOL)]) := by
  have h := create_size_check (Pubkey.key 1)
    ⟨⟨Pubkey.key 2, true, Pubkey.sysProgId⟩,
     ⟨Pubkey.introPda (Pubkey.key 1) (Pubkey.key 2), false, Pubkey.sysProgId⟩,
     ⟨Pubkey.counterPda (Pubkey.key 1) (Pubkey.introPda (Pubkey.key 1) (Pubkey.key 2)), false,
      Pubkey.sysProgId⟩,
     ⟨Pubkey.mintPda (Pubkey.key 1), false, Pubkey.tokenProgId⟩,
     ⟨Pubkey.authPda (Pubkey.key 1), false, Pubkey.key 1⟩,
     ⟨Pubkey.ata (Pubkey.key 2) (Pubkey.mintPda (Pubkey.key 1)), false, Pubkey.tokenProgId⟩,
     ⟨Pubkey.sysProgId, false, Pubkey.sysProgId⟩,
     ⟨Pubkey.tokenProgId, false, Pubkey.sysProgId⟩⟩
    ⟨7, 3, true, true, true⟩ [] (List.replicate 976 0)
    rfl rfl rfl rfl rfl rfl rfl rfl rfl rfl
  exact ⟨h.1, h.2.2⟩

theorem add_student_intro_ok_inv (program_id : Pubkey) (a : CreateAccounts) (e : CreateEnv)
    (name message : List Nat) (evs : List Event)
    (h : add_student_intro program_id a e name message = Except.ok evs) :
    a.tokenMintPda.key = Pubkey.mintPda program_id ∧
    a.mintAuthPda.key = Pubkey.authPda program_id ∧
    evs = [Event.createAccount a.initializer.key a.userAccount.key e.rentStudent 1000 program_id,
           Event.writeStudent a.userAccount.key ⟨studentinfoDiscBytes, true, name, message⟩,
           Event.createAccount a.initializer.key a.replyCounter.key e.rentCounter
             ((4 + counterDiscBytes.length) + 1 + 1) program_id,
           Event.writeCounter a.replyCounter.key ⟨counterDiscBytes, true, 0⟩,
           Event.mintTo a.tokenMintPda.key a.userAta.key a.mintAuthPda.key
             (10 * LAMPORTS_PER_SOL)] := by
  simp only [add_student_intro] at h
  by_cases h1 : (!a.initializer.isSigner) = true
  · rw [if_pos h1] at h; cases h
  rw [if_neg h1] at h
  by_cases h2 : Pubkey.introPda program_id a.initializer.key ≠ a.userAccount.key
  · rw [if_pos h2] at h; cases h
  rw [if_neg h2] at h
  by_cases h3 : a.tokenMintPda.key ≠ Pubkey.mintPda program_id
  · rw [if_pos h3] at h; cases h
  rw [if_neg h3] at h
  by_cases h4 : a.mintAuthPda.key ≠ Pubkey.authPda program_id
  · rw [if_pos h4] at h; cases h
  rw [if_neg h4] at h
  by_cases h5 : a.userAta.key ≠ Pubkey.ata a.initializer.key a.tokenMintPda.key
  · rw [if_pos h5] at h; cases h
  rw [if_neg h5] at h
  by_cases h6 : a.tokenProgram.key ≠ Pubkey.tokenProgId
  · rw [if_pos h6] at h; cases h
  rw [if_neg h6] at h
  by_cases h7 : (4 + studentinfoDiscBytes.length) + 1 + (4 + name.length) +
      (4 + message.length) > 1000
  · rw [if_pos h7] at h; cases h
  rw [if_neg h7] at h
  by_cases h8 : (!e.userCreateOk) = true
  · rw [if_pos h8] at h; cases h
  rw [if_neg h8] at h
  rw [if_neg (by simp [defaultStudentInfo])] at h
  by_cases h10 : (serializeStudentInfo
      { defaultStudentInfo with
        discriminator := studentinfoDiscBytes
        name := name
        msg := message
        is_initialized := true }).length > 1000
  · rw [if_pos h10] at h; cases h
  rw [if_neg h10] at h
  by_cases h11 : Pubkey.counterPda program_id (Pubkey.introPda program_id a.initializer.key) ≠
      a.replyCounter.key
  · rw [if_pos h11] at h; cases h
  rw [if_neg h11] at h
  by_cases h12 : (!e.counterCreateOk) = true
  · rw [if_pos h12] at h; cases h
  rw [if_neg h12] at h
  rw [if_neg (by simp [defaultReplyCounter])] at h
  by_cases h14 : (!e.mintOk) = true
  · rw [if_pos h14] at h; cases h
  rw [if_neg h14] at h
  simp only [Except.ok.injEq] at h
  exact ⟨not_not.mp h3, not_not.mp h4, h.symm⟩

/-- C9: every successful `add_student_intro` issues exactly one mint — of
`10 * LAMPORTS_PER_SOL = 10^10` base units, that is 10 whole tokens at 9
decimals, to the author's associated token account, authorized by the
minting-authority PDA — and `update_student_intro` never issues a mint. -/
theorem create_mints_once :
    (∀ (program_id : Pubkey) (a : CreateAccounts) (e : CreateEnv)
       (name message : List Nat) (evs : List Event),
      add_student_intro program_id a e name message = Except.ok evs →
      evs.filter Event.isMint =
        [Event.mintTo (Pubkey.mintPda program_id) a.userAta.key
          (Pubkey.authPda program_id) (10 * LAMPORTS_PER_SOL)] ∧
      10 * LAMPORTS_PER_SOL = 10000000000) ∧
    (∀ (program_id : Pubkey) (a : UpdateAccounts) (name message : List Nat)
       (r : StudentInfo × List Event),
      update_student_intro program_id a name message = Except.ok r →
      r.2.filter Event.isMint = []) := by
  constructor
  · intro program_id a e name message evs h
    obtain ⟨hm, ha, hevs⟩ := add_student_intro_ok_inv program_id a e name message evs h
    subst hevs
    simp [Event.isMint, List.filter, hm, ha, LAMPORTS_PER_SOL]
  · intro program_id a name message r h
    simp only [update_student_intro] at h
    split at h
    · simp at h
    · split at h
      · simp at h
      · split at h
        · simp at h
        · split at h
          · simp at h
          · split at h
            · simp at h
            · simp only [Except.ok.injEq] at h
              subst h
              rfl

/-- C9 (witness): the theorem at a concrete successful create (the witness
account list of C8) and at a concrete successful update. -/
theorem create_mints_once_witness :
    ([Event.createAccount (Pubkey.key 2) (Pubkey.introPda (Pubkey.key 1) (Pubkey.key 2))
        7 1000 (Pubkey.key 1),
      Event.writeStudent (Pubkey.introPda (Pubkey.key 1) (Pubkey.key 2))
        ⟨studentinfoDiscBytes, true, [], [65]⟩,
      Event.createAccount (Pubkey.key 2)
        (Pubkey.counterPda (Pubkey.key 1) (Pubkey.introPda (Pubkey.key 1) (Pubkey.key 2)))
        3 13 (Pubkey.key 1),
      Event.writeCounter
        (Pubkey.counterPda (Pubkey.key 1) (Pubkey.introPda (Pubkey.key 1) (Pubkey.key 2)))
        ⟨counterDiscBytes, true, 0⟩,
      Event.mintTo (Pubkey.mintPda (Pubkey.key 1))
        (Pubkey.ata (Pubkey.key 2) (Pubkey.mintPda (Pubkey.key 1)))
        (Pubkey.authPda (Pubkey.key 1)) (10 * LAMPORTS_PER_SOL)].filter Event.isMint =
      [Event.mintTo (Pubkey.mintPda (Pubkey.key 1))
        (Pubkey.ata (Pubkey.key 2) (Pubkey.mintPda (Pubkey.key 1)))
        (Pubkey.authPda (Pubkey.key 1)) (10 * LAMPORTS_PER_SOL)] ∧
      10 * LAMPORTS_PER_SOL = 10000000000) ∧
    ((⟨studentinfoDiscBytes, true, [], [104]⟩,
      [Event.writeStudent (Pubkey.introPda (Pubkey.key 1) (Pubkey.key 2))
        ⟨studentinfoDiscBytes, true, [], [104]⟩]) :
        StudentInfo × List Event).2.filter Event.isMint = [] := by
  constructor
  · exact create_mints_once.1 (Pubkey.key 1)
      ⟨⟨Pubkey.key 2, true, Pubkey.sysProgId⟩,
       ⟨Pubkey.introPda (Pubkey.key 1) (Pubkey.key 2), false, Pubkey.sysProgId⟩,
       ⟨Pubkey.counterPda (Pubkey.key 1) (Pubkey.introPda (Pubkey.key 1) (Pubkey.key 2)), false,
        Pubkey.sysProgId⟩,
       ⟨Pubkey.mintPda (Pubkey.key 1), false, Pubkey.tokenProgId⟩,
       ⟨Pubkey.authPda (Pubkey.key 1), false, Pubkey.key 1⟩,
       ⟨Pubkey.ata (Pubkey.key 2) (Pubkey.mintPda (Pubkey.key 1)), false, Pubkey.tokenProgId⟩,
       ⟨Pubkey.sysProgId, false, Pubkey.sysProgId⟩,
       ⟨Pubkey.tokenProgId, false, Pubkey.sysProgId⟩⟩
      ⟨7, 3, true, true, true⟩ [] [65] _ rfl
  · exact create_mints_once.2 (Pubkey.key 1)
      ⟨⟨Pubkey.key 2, true, Pubkey.sysProgId⟩,
       ⟨Pubkey.introPda (Pubkey.key 1) (Pubkey.key 2), false, Pubkey.key 1⟩,
       ⟨studentinfoDiscBytes, true, [], []⟩, 1000⟩ [] [104] _ rfl

/-- C10: `add_reply` requires no signature from any account and performs no
validation of the supplied introduction account: the result is unchanged
under arbitrary signer flags and owners of the replier and introduction
accounts, none of the account-validation errors can occur, and whenever the
reply-address derivation check passes and creation succeeds, a reply record
is created whose back-reference is whatever address was supplied in the
introduction position. -/
theorem add_reply_no_validation :
    (∀ (program_id : Pubkey) (a : ReplyAccounts) (e : ReplyEnv) (t : List Nat)
       (b s2 : Bool) (w w2 : Pubkey),
      add_reply program_id
        { a with
          replier := { a.replier with isSigner := b, owner := w }
          userAccount := { a.userAccount with isSigner := s2, owner := w2 } } e t =
      add_reply program_id a e t) ∧
    (∀ (program_id : Pubkey) (a : ReplyAccounts) (e : ReplyEnv) (t : List Nat),
      add_reply program_id a e t ≠ Except.error ProgErr.missingRequiredSignature ∧
      add_reply program_id a e t ≠ Except.error ProgErr.uninitializedAccount ∧
      add_reply program_id a e t ≠ Except.error ProgErr.illegalOwner) ∧
    (∀ (program_id : Pubkey) (a : ReplyAccounts) (e : ReplyEnv) (t : List Nat),
      Pubkey.replyPda program_id a.userAccount.key (toBeBytes a.counterData.counter) =
        a.replyAccount.key → e.createOk = true →
      ∃ o, add_reply program_id a e t = Except.ok o ∧
        o.storedReply.studentinfo = a.userAccount.key ∧
        o.storedReply.reply = t ∧ o.storedReply.is_initialized = true) := by
  refine ⟨?_, ?_, ?_⟩
  · intro program_id a e t b s2 w w2
    rfl
  · intro program_id a e t
    refine ⟨?_, ?_, ?_⟩ <;>
      · intro hbad
        simp only [add_reply] at hbad
        repeat' split at hbad
        all_goals simp_all
  · intro program_id a e t hk he
    refine ⟨⟨[Event.createAccount a.replier.key a.replyAccount.key e.rent
                ((4 + replyDiscBytes.length) + 1 + 32 + (4 + t.length)) program_id,
              Event.writeReply a.replyAccount.key ⟨replyDiscBytes, a.userAccount.key, t, true⟩,
              Event.writeCounter a.replyCounter.key
                { a.counterData with counter := a.counterData.counter + 1 }],
            ⟨replyDiscBytes, a.userAccount.key, t, true⟩,
            { a.counterData with counter := a.counterData.counter + 1 }⟩,
      ?_, rfl, rfl, rfl⟩
    simp [add_reply, hk, he, defaultReply]

/-- C10 (witness): the theorem at a concrete account list with an unsigned
replier and an uninitialized, system-owned introduction position. -/
theorem add_reply_no_validation_witness :
    ∃ o, add_reply (Pubkey.key 1)
      { replier := ⟨Pubkey.key 2, false, Pubkey.sysProgId⟩
        userAccount := ⟨Pubkey.key 77, false, Pubkey.sysProgId⟩
        replyCounter := ⟨Pubkey.key 99, false, Pubkey.key 1⟩
        replyAccount := ⟨Pubkey.replyPda (Pubkey.key 1) (Pubkey.key 77) (toBeBytes 4), false,
                         Pubkey.sysProgId⟩
        systemProgram := ⟨Pubkey.sysProgId, false, Pubkey.sysProgId⟩
        counterData := ⟨counterDiscBytes, true, 4⟩ }
      { rent := 5, createOk := true } [97] = Except.ok o ∧
      o.storedReply.studentinfo = Pubkey.key 77 ∧
      o.storedReply.reply = [97] ∧ o.storedReply.is_initialized = true :=
  add_reply_no_validation.2.2 (Pubkey.key 1)
    ⟨⟨Pubkey.key 2, false, Pubkey.sysProgId⟩,
     ⟨Pubkey.key 77, false, Pubkey.sysProgId⟩,
     ⟨Pubkey.key 99, false, Pubkey.key 1⟩,
     ⟨Pubkey.replyPda (Pubkey.key 1) (Pubkey.key 77) (toBeBytes 4), false, Pubkey.sysProgId⟩,
     ⟨Pubkey.sysProgId, false, Pubkey.sysProgId⟩,
     ⟨counterDiscBytes, true, 4⟩⟩
    { rent := 5, createOk := true } [97] rfl rfl

end StudentIntro
